import Mathlib

/-!
Shallow embedding of the Duke Script parser
(`src/loader/duke_script_loader.cpp` of PatriotRossii/RigelEngine).

The C++ code reads from `std::istream`s over in-memory text.  We model a
stream as a byte list together with a cursor position and a fail flag
(`std::ios` failbit: once set, every further extraction is a no-op).
Bytes are `Nat` (the code inspects them via `static_cast<uint8_t>`).
C++ `std::string` values are byte lists as well.  Exceptions
(`std::invalid_argument`) become `Except` errors carrying the thrown
message as a byte list.  The recursive line loops are written with an
explicit fuel parameter; the top-level entry point supplies fuel larger
than the input length, which every loop iteration consumes at least one
byte of, so the fuel branch is never reached from `loadScripts`.
-/

namespace DukeScript

/-- Byte list of an ASCII string literal (models a C++ string constant). -/
def strB (s : String) : List Nat := s.data.map Char.toNat

/-- `std::isspace` for the default locale, on a byte. -/
def isSpaceByte (c : Nat) : Bool := decide (c = 32 ∨ (9 ≤ c ∧ c ≤ 13))

/-- Decimal digit test, as used by `operator>>(int)` and `std::stoi`. -/
def isDigitByte (c : Nat) : Bool := decide (48 ≤ c ∧ c ≤ 57)

/-- An input stream: the underlying bytes, the read position, and the
sticky fail flag (C++ failbit). -/
structure IStream where
  data : List Nat
  pos : Nat
  fail : Bool
deriving Repr, DecidableEq

/-- `skipWhiteSpace` (loader line 53): peek/get while `isspace`.  On a
failed stream `peek` fails immediately, so nothing moves. -/
def skipWhiteSpace (st : IStream) : IStream :=
  if st.fail then st
  else { st with pos := st.pos + ((st.data.drop st.pos).takeWhile isSpaceByte).length }

/-- `std::getline(stream, line, newline)`: fails (returns `none`, ending the
C++ `for(getline...)` loops) iff the stream already failed or is exhausted;
otherwise yields the bytes up to the next newline, consuming the newline. -/
def getlineNl (st : IStream) : Option (List Nat × IStream) :=
  if st.fail ∨ st.data.length ≤ st.pos then none
  else
    let rest := st.data.drop st.pos
    let line := rest.takeWhile (fun c => !(c == 10))
    let consumed := if line.length < rest.length then line.length + 1 else line.length
    some (line, { st with pos := st.pos + consumed })

/-- `std::getline(stream, out, delim)` in contexts where the C++ code keeps
the (cleared) output string on failure: returns `[]` and sets the fail flag
when nothing can be extracted. -/
def getlineDelim (delim : Nat) (st : IStream) : List Nat × IStream :=
  if st.fail ∨ st.data.length ≤ st.pos then ([], { st with fail := true })
  else
    let rest := st.data.drop st.pos
    let line := rest.takeWhile (fun c => !(c == delim))
    let consumed := if line.length < rest.length then line.length + 1 else line.length
    (line, { st with pos := st.pos + consumed })

/-- `stream.get()`: consume a single byte (used to skip the separator after
a keyword before a text payload). -/
def get1 (st : IStream) : IStream :=
  if st.fail ∨ st.data.length ≤ st.pos then { st with fail := true }
  else { st with pos := st.pos + 1 }

/-- `stream >> aString`: skip whitespace, then extract a maximal run of
non-whitespace bytes; extraction of nothing sets the fail flag and leaves
the string empty (C++11 semantics). -/
def readToken (st : IStream) : List Nat × IStream :=
  if st.fail then ([], st)
  else
    let st1 := skipWhiteSpace st
    let tok := (st1.data.drop st1.pos).takeWhile (fun c => !(isSpaceByte c))
    if tok.isEmpty then ([], { st1 with fail := true })
    else (tok, { st1 with pos := st1.pos + tok.length })

/-- Leading sign of a numeric field: how many bytes it occupies and whether
it is a minus sign. -/
def signInfo : List Nat → Nat × Bool
  | [] => (0, false)
  | c :: _ => if c = 45 then (1, true) else if c = 43 then (1, false) else (0, false)

/-- `stream >> anInt`: skip whitespace, optional sign, then digits; on
failure the target is set to `0` and the fail flag is set (C++11). -/
def readInt (st : IStream) : Int × IStream :=
  if st.fail then (0, st)
  else
    let st1 := skipWhiteSpace st
    let rest := st1.data.drop st1.pos
    let si := signInfo rest
    let ds := (rest.drop si.1).takeWhile isDigitByte
    if ds.isEmpty then (0, { st1 with pos := st1.pos + si.1, fail := true })
    else
      let v : Int := ds.foldl (fun acc d => acc * 10 + ((d : Int) - 48)) 0
      (if si.2 then -v else v, { st1 with pos := st1.pos + si.1 + ds.length })

/-- `boost::trim_right`: strip trailing whitespace. -/
def trimRight (s : List Nat) : List Nat := (s.reverse.dropWhile isSpaceByte).reverse

/-- `boost::trim`: strip leading and trailing whitespace. -/
def trim (s : List Nat) : List Nat := trimRight (s.dropWhile isSpaceByte)

/-- `isCommand` (loader line 60): the line starts with `//`. -/
def isCommand : List Nat → Bool
  | 47 :: 47 :: _ => true
  | _ => false

/-- `stripCommandPrefix` / inline `trim_left_if` (loader lines 65, 80):
drop all leading slashes. -/
def stripCmdMarker (s : List Nat) : List Nat := s.dropWhile (fun c => c == 47)

/-- `std::stoi`: skip whitespace, optional sign, then digits; throws
`std::invalid_argument` when no digits can be consumed. -/
def stoi (s : List Nat) : Except (List Nat) Int :=
  let s1 := s.dropWhile isSpaceByte
  let si := signInfo s1
  let ds := (s1.drop si.1).takeWhile isDigitByte
  if ds.isEmpty then .error (strB "stoi: no conversion")
  else
    let v : Int := ds.foldl (fun acc d => acc * 10 + ((d : Int) - 48)) 0
    .ok (if si.2 then -v else v)

/-- `data::script::Action`: the tagged variant produced by the parser. -/
inductive Action where
  | FadeIn
  | FadeOut
  | WaitForUserInput
  | StopNewsReporterAnimation
  | DisableMenuFunctionality
  | ShowKeyBindings
  | EnableTextOffset
  | EnableTimeOutToDemo
  | ScheduleFadeInBeforeNextWaitState
  | Delay (amount : Int)
  | AnimateNewsReporter (duration : Int)
  | ShowSaveSlots (slot : Int)
  | DrawSprite (x y actorId frame : Int)
  | ShowFullScreenImage (imageName : List Nat)
  | ShowMenuSelectionIndicator (yPos : Int)
  | DrawText (x y : Int) (text : List Nat)
  | DrawBigText (x y colorIndex : Int) (text : List Nat)
  | SetPalette (paletteFile : List Nat)
  | SetupCheckBoxes (xPos : Int) (definitions : List (Int × Int))
  | ShowMessageBox (y width height : Int) (lines : List (List Nat))
  | PagesDefinition (pages : List (List Action))
  | ConfigurePersistentMenuSelection (slot : Int)
deriving Repr

/-- C++ iterator-range string construction `string(s.cbegin()+a, s.cbegin()+b)`.
The loader builds the frame-number string from range `[4,6)` after checking
only `size() < 5`, so for a 5-byte string the range covers one byte past the
end; in practice that byte is the NUL terminator of the `std::string` buffer
(formally undefined behaviour in C++).  We model the buffer as the bytes
followed by a single NUL. -/
def cppRange (s : List Nat) (a b : Nat) : List Nat := ((s ++ [0]).drop a).take (b - a)

/-- The XYTEXT payload decoder (loader lines 254-295): big-text marker scan
first, then the 0xEF sprite form, else plain text. -/
def decodeXYTEXT (x y : Int) (parameters : List Nat) :
    Except (List Nat) (Option Action) :=
  if parameters.isEmpty then .error (strB "Corrupt Duke Script file")
  else
    let pre := parameters.takeWhile (fun c => decide (c < 240))
    match parameters.dropWhile (fun c => decide (c < 240)) with
    | marker :: after =>
      .ok (some (.DrawBigText (x + pre.length) y ((marker : Int) - 240) after))
    | [] =>
      if parameters.head? = some 239 then
        if parameters.length < 5 then .error (strB "Corrupt Duke Script file")
        else
          match stoi (cppRange parameters 1 4) with
          | .error e => .error e
          | .ok actorId =>
            match stoi (cppRange parameters 4 6) with
            | .error e => .error e
            | .ok frame =>
              .ok (some (.DrawSprite (x + 2) (y + 1) actorId frame))
      else .ok (some (.DrawText x y parameters))

/-- The TOGGS checkbox loop (loader lines 327-333): read `count` pairs of
(yPos, id); failed extractions leave zeros but the loop still runs. -/
def toggsLoop : Nat → IStream → List (Int × Int) → List (Int × Int) × IStream
  | 0, st, acc => (acc, st)
  | n + 1, st, acc =>
    let p1 := readInt st
    let p2 := readInt p1.2
    toggsLoop n p2.2 (acc ++ [(p1.1, p2.1)])

/-- `parseOneLineAction` (loader lines 141-357): keyword dispatch producing
zero or one action, or an error.  The release-build `assert(command != "END")`
has no effect and is not modelled. -/
def parseOneLineAction (command : List Nat) (ls : IStream) :
    Except (List Nat) (Option Action) :=
  if command = strB "FADEIN" then .ok (some .FadeIn)
  else if command = strB "FADEOUT" then .ok (some .FadeOut)
  else if command = strB "DELAY" then
    let amount := (readInt ls).1
    if amount ≤ 0 then .error (strB "Invalid DELAY command in Duke Script file")
    else .ok (some (.Delay amount))
  else if command = strB "BABBLEON" then
    let duration := (readInt ls).1
    if duration ≤ 0 then .error (strB "Invalid BABBLEON command in Duke Script file")
    else .ok (some (.AnimateNewsReporter duration))
  else if command = strB "BABBLEOFF" then .ok (some .StopNewsReporterAnimation)
  else if command = strB "NOSOUNDS" then .ok (some .DisableMenuFunctionality)
  else if command = strB "KEYS" then .ok (some .ShowKeyBindings)
  else if command = strB "GETNAMES" then
    let slot := (readInt ls).1
    if slot < 0 ∨ 8 ≤ slot then
      .error (strB "Invalid GETNAMES command in Duke Script file")
    else .ok (some (.ShowSaveSlots slot))
  else if command = strB "PAK" then .ok (some (.DrawSprite 0 0 146 0))
  else if command = strB "LOADRAW" then
    let imageName := trim (readToken ls).1
    if imageName.isEmpty then
      .error (strB "Invalid LOADRAW command in Duke Script file")
    else .ok (some (.ShowFullScreenImage imageName))
  else if command = strB "Z" then
    .ok (some (.ShowMenuSelectionIndicator (readInt ls).1))
  else if command = strB "XYTEXT" then
    let px := readInt ls
    let py := readInt px.2
    let ls3 := get1 py.2
    decodeXYTEXT px.1 py.1 (getlineDelim 13 ls3).1
  else if command = strB "GETPAL" then
    let paletteFile := trim (readToken ls).1
    if paletteFile.isEmpty then
      .error (strB "Invalid LOADRAW command in Duke Script file")
    else .ok (some (.SetPalette paletteFile))
  else if command = strB "WAIT" then .ok (some .WaitForUserInput)
  else if command = strB "SHIFTWIN" then .ok (some .EnableTextOffset)
  else if command = strB "EXITTODEMO" then .ok (some .EnableTimeOutToDemo)
  else if command = strB "TOGGS" then
    let pXPos := readInt ls
    let pCount := readInt pXPos.2
    .ok (some (.SetupCheckBoxes pXPos.1 (toggsLoop pCount.1.toNat pCount.2 []).1))
  else
    if command = strB "APAGE" ∨ command = strB "CENTERWINDOW" ∨
       command = strB "CWTEXT" ∨ command = strB "MENU" ∨
       command = strB "PAGESEND" ∨ command = strB "PAGESSTART" ∨
       command = strB "SKLINE" then
      .error (strB "The command " ++ command ++ strB " is not allowed in this context")
    else .ok none

/-- The loop of `parseMessageBoxTextDefinition` (loader lines 105-135):
`startOfLine` is the remembered `tellg` position; a keyword other than
CWTEXT/SKLINE rewinds to it (`seekg`) and stops; end of input stops with
the accumulated lines. -/
def parseMessageBoxLoop :
    Nat → List (List Nat) → Nat → IStream → Except (List Nat) (List (List Nat) × IStream)
  | 0, _, _, _ => .error (strB "fuel exhausted")
  | fuel + 1, messageLines, startOfLine, st =>
    match getlineNl st with
    | none => .ok (messageLines, st)
    | some (raw, st1) =>
      let line := trim raw
      if isCommand line then
        let stripped := stripCmdMarker line
        let p := readToken ⟨stripped, 0, false⟩
        let command := trim p.1
        if command = strB "CWTEXT" then
          let ls2 := get1 p.2
          let messageLine := (getlineDelim 13 ls2).1
          if messageLine.isEmpty then .error (strB "Corrupt Duke Script file")
          else
            parseMessageBoxLoop fuel (messageLines ++ [trimRight messageLine]) st1.pos st1
        else if command = strB "SKLINE" then
          parseMessageBoxLoop fuel (messageLines ++ [[]]) st1.pos st1
        else
          .ok (messageLines, { st1 with pos := startOfLine })
      else
        parseMessageBoxLoop fuel messageLines startOfLine st1

/-- `parseMessageBoxTextDefinition` (loader line 98): start with the current
position remembered. -/
def parseMessageBoxTextDefinition (fuel : Nat) (st : IStream) :
    Except (List Nat) (List (List Nat) × IStream) :=
  parseMessageBoxLoop fuel [] st.pos st

/-- The loop of `parseScriptLines` (loader lines 77-91): getline, trim,
dispatch command lines until the end marker; exhaustion of the line source
throws the missing-end-marker error (lines 93-94). -/
def parseScriptLinesLoop {σ : Type}
    (consume : σ → List Nat → IStream → IStream → Except (List Nat) (σ × IStream))
    (endMarker : List Nat) : Nat → σ → IStream → Except (List Nat) (σ × IStream)
  | 0, _, _ => .error (strB "fuel exhausted")
  | fuel + 1, s, st =>
    match getlineNl st with
    | none =>
      .error (strB "Missing end marker '" ++ endMarker ++ strB "' in Duke Script file")
    | some (raw, st1) =>
      let line := trim raw
      if isCommand line then
        let stripped := stripCmdMarker line
        if stripped = endMarker then .ok (s, st1)
        else
          let p := readToken ⟨stripped, 0, false⟩
          let command := trim p.1
          match consume s command p.2 st1 with
          | .error e => .error e
          | .ok (s', st2) => parseScriptLinesLoop consume endMarker fuel s' st2
      else
        parseScriptLinesLoop consume endMarker fuel s st1

/-- `parseScriptLines` (loader line 71): skip whitespace, then loop. -/
def parseScriptLines {σ : Type}
    (consume : σ → List Nat → IStream → IStream → Except (List Nat) (σ × IStream))
    (endMarker : List Nat) (fuel : Nat) (s : σ) (st : IStream) :
    Except (List Nat) (σ × IStream) :=
  parseScriptLinesLoop consume endMarker fuel s (skipWhiteSpace st)

/-- `pages.back().emplace_back(action)`: append to the last page.  The
empty-list case is unreachable from the parser (the page list starts with
one page and only grows). -/
def appendToLast : List (List Action) → Action → List (List Action)
  | [], _ => []
  | [p], a => [p ++ [a]]
  | p :: q :: rest, a => p :: appendToLast (q :: rest) a

/-- The consume callback of `parsePagesDefinition` (loader lines 365-375). -/
def parsePagesConsume (pages : List (List Action)) (command : List Nat)
    (ls : IStream) (st : IStream) :
    Except (List Nat) (List (List Action) × IStream) :=
  if command = strB "APAGE" then .ok (pages ++ [[]], st)
  else
    match parseOneLineAction command ls with
    | .error e => .error e
    | .ok (some a) => .ok (appendToLast pages a, st)
    | .ok none => .ok (pages, st)

/-- `parsePagesDefinition` (loader lines 360-378): one initial empty page,
lines consumed until PAGESEND; returns the page list. -/
def parsePagesDefinition (fuel : Nat) (st : IStream) :
    Except (List Nat) (List (List Action) × IStream) :=
  parseScriptLines parsePagesConsume (strB "PAGESEND") fuel [[]] st

/-- `parseAction` (loader lines 381-403): CENTERWINDOW reads y, height,
width in that order, then the message-box block; everything else goes to
`parseOneLineAction`. -/
def parseAction (fuel : Nat) (command : List Nat) (st : IStream) (ls : IStream) :
    Except (List Nat) (Option Action × IStream) :=
  if command = strB "CENTERWINDOW" then
    let pY := readInt ls
    let pHeight := readInt pY.2
    let pWidth := readInt pHeight.2
    match parseMessageBoxTextDefinition fuel (skipWhiteSpace st) with
    | .error e => .error e
    | .ok (lines, st2) =>
      .ok (some (.ShowMessageBox pY.1 pWidth.1 pHeight.1 lines), st2)
  else
    match parseOneLineAction command ls with
    | .error e => .error e
    | .ok a => .ok (a, st)

/-- The consume callback of `parseScript` (loader lines 410-429). -/
def parseScriptConsume (fuel : Nat) (script : List Action) (command : List Nat)
    (ls : IStream) (st : IStream) :
    Except (List Nat) (List Action × IStream) :=
  if command = strB "PAGESSTART" then
    match parsePagesDefinition fuel (skipWhiteSpace st) with
    | .error e => .error e
    | .ok (pages, st2) => .ok (script ++ [Action.PagesDefinition pages], st2)
  else if command = strB "MENU" then
    let slot := (readInt ls).1
    .ok (script ++ [Action.ConfigurePersistentMenuSelection slot,
                    Action.ScheduleFadeInBeforeNextWaitState], st)
  else
    match parseAction fuel command st ls with
    | .error e => .error e
    | .ok (maybeAction, st1) => .ok (script ++ maybeAction.toList, st1)

/-- `parseScript` (loader line 406): a script body runs to the END marker. -/
def parseScript (fuel : Nat) (st : IStream) :
    Except (List Nat) (List Action × IStream) :=
  parseScriptLines (parseScriptConsume fuel) (strB "END") fuel [] st

/-- `bundle.emplace(name, script)` on the name-to-script map: inserts only
when the name is not present yet (`std::unordered_map::emplace`). -/
def bundleEmplace (bundle : List (List Nat × List Action)) (k : List Nat)
    (v : List Action) : List (List Nat × List Action) :=
  if bundle.any (fun q => decide (q.1 = k)) then bundle else bundle ++ [(k, v)]

/-- Lookup in the bundle map. -/
def bundleLookup (bundle : List (List Nat × List Action)) (k : List Nat) :
    Option (List Action) :=
  (bundle.find? (fun q => decide (q.1 = k))).map (fun q => q.2)

/-- The loop of `loadScripts` (loader lines 441-451): read a script name
token, parse its body, emplace; stop at end of input. -/
def loadScriptsLoop :
    Nat → List (List Nat × List Action) → IStream →
    Except (List Nat) (List (List Nat × List Action))
  | 0, _, _ => .error (strB "fuel exhausted")
  | fuel + 1, bundle, st =>
    if st.fail ∨ st.data.length ≤ st.pos then .ok bundle
    else
      let st1 := skipWhiteSpace st
      let p := readToken st1
      let scriptName := trim p.1
      if scriptName.isEmpty then loadScriptsLoop fuel bundle p.2
      else
        match parseScript (fuel + 1) p.2 with
        | .error e => .error e
        | .ok (script, st2) =>
          loadScriptsLoop fuel (bundleEmplace bundle scriptName script) st2

/-- `loadScripts` (loader line 437): entry point over a whole source blob. -/
def loadScripts (scriptSource : List Nat) :
    Except (List Nat) (List (List Nat × List Action)) :=
  loadScriptsLoop (scriptSource.length + 2) [] ⟨scriptSource, 0, false⟩

/-- The keywords handled by a dedicated branch of `parseOneLineAction`. -/
def dispatchKeywords : List (List Nat) :=
  [strB "FADEIN", strB "FADEOUT", strB "DELAY", strB "BABBLEON", strB "BABBLEOFF",
   strB "NOSOUNDS", strB "KEYS", strB "GETNAMES", strB "PAK", strB "LOADRAW",
   strB "Z", strB "XYTEXT", strB "GETPAL", strB "WAIT", strB "SHIFTWIN",
   strB "EXITTODEMO", strB "TOGGS"]

/-- The `notAllowedHere` set of `parseOneLineAction` (loader lines 340-348). -/
def contextKeywords : List (List Nat) :=
  [strB "APAGE", strB "CENTERWINDOW", strB "CWTEXT", strB "MENU",
   strB "PAGESEND", strB "PAGESSTART", strB "SKLINE"]

/-! ## Helper lemmas -/

theorem takeWhile_all {p : Nat → Bool} :
    ∀ l : List Nat, (∀ b ∈ l, p b = true) → l.takeWhile p = l
  | [], _ => rfl
  | a :: t, h => by
    rw [List.takeWhile_cons, if_pos (h a (List.mem_cons_self a t)),
      takeWhile_all t (fun b hb => h b (List.mem_cons_of_mem a hb))]

theorem dropWhile_all {p : Nat → Bool} :
    ∀ l : List Nat, (∀ b ∈ l, p b = true) → l.dropWhile p = []
  | [], _ => rfl
  | a :: t, h => by
    rw [List.dropWhile_cons, if_pos (h a (List.mem_cons_self a t))]
    exact dropWhile_all t (fun b hb => h b (List.mem_cons_of_mem a hb))

theorem takeWhile_middle {p : Nat → Bool} :
    ∀ (pre : List Nat) (m : Nat) (post : List Nat),
      (∀ b ∈ pre, p b = true) → p m = false →
      (pre ++ m :: post).takeWhile p = pre ∧ (pre ++ m :: post).dropWhile p = m :: post
  | [], m, post, _, hm => by
    constructor
    · rw [List.nil_append, List.takeWhile_cons, if_neg (by simp [hm])]
    · rw [List.nil_append, List.dropWhile_cons, if_neg (by simp [hm])]
  | a :: t, m, post, h, hm => by
    have ha := h a (List.mem_cons_self a t)
    have ih := takeWhile_middle t m post (fun b hb => h b (List.mem_cons_of_mem a hb)) hm
    constructor
    · rw [List.cons_append, List.takeWhile_cons, if_pos ha, ih.1]
    · rw [List.cons_append, List.dropWhile_cons, if_pos ha, ih.2]

theorem appendToLast_length (a : Action) :
    ∀ l : List (List Action), (appendToLast l a).length = l.length
  | [] => rfl
  | [_] => rfl
  | _ :: q :: rest => by
    have := appendToLast_length a (q :: rest)
    simp [appendToLast] at this ⊢
    omega

theorem skipWhiteSpace_data (st : IStream) : (skipWhiteSpace st).data = st.data := by
  unfold skipWhiteSpace
  split <;> rfl

theorem skipWhiteSpace_pos_le (st : IStream) : st.pos ≤ (skipWhiteSpace st).pos := by
  unfold skipWhiteSpace
  split
  · exact le_refl _
  · simp

theorem getlineNl_none_of_exhausted {st : IStream} (h : st.data.length ≤ st.pos) :
    getlineNl st = none := by
  unfold getlineNl
  rw [if_pos (Or.inr h)]

theorem isSpaceByte_eq_false_of_digit {b : Nat} (h : isDigitByte b = true) :
    isSpaceByte b = false := by
  simp [isDigitByte] at h
  simp [isSpaceByte]
  omega

theorem stoiThreeDigits (d1 d2 d3 : Nat) (h1 : isDigitByte d1 = true)
    (h2 : isDigitByte d2 = true) (h3 : isDigitByte d3 = true) :
    stoi [d1, d2, d3] =
      .ok (((d1 : Int) - 48) * 100 + ((d2 : Int) - 48) * 10 + ((d3 : Int) - 48)) := by
  have hb1 : 48 ≤ d1 ∧ d1 ≤ 57 := by simpa [isDigitByte] using h1
  have hdw : [d1, d2, d3].dropWhile isSpaceByte = [d1, d2, d3] := by
    rw [List.dropWhile_cons, if_neg (by simp [isSpaceByte_eq_false_of_digit h1])]
  have hsi : signInfo [d1, d2, d3] = (0, false) := by
    show (if d1 = 45 then ((1 : Nat), true)
      else if d1 = 43 then (1, false) else (0, false)) = (0, false)
    rw [if_neg (by omega), if_neg (by omega)]
  have htw : [d1, d2, d3].takeWhile isDigitByte = [d1, d2, d3] :=
    takeWhile_all _ (by intro b hb; simp at hb; rcases hb with rfl | rfl | rfl <;> assumption)
  simp only [stoi, hdw, hsi, List.drop_zero, htw]
  simp [List.foldl]
  ring

theorem stoiTwoDigits (d1 d2 : Nat) (h1 : isDigitByte d1 = true)
    (h2 : isDigitByte d2 = true) :
    stoi [d1, d2] = .ok (((d1 : Int) - 48) * 10 + ((d2 : Int) - 48)) := by
  have hb1 : 48 ≤ d1 ∧ d1 ≤ 57 := by simpa [isDigitByte] using h1
  have hdw : [d1, d2].dropWhile isSpaceByte = [d1, d2] := by
    rw [List.dropWhile_cons, if_neg (by simp [isSpaceByte_eq_false_of_digit h1])]
  have hsi : signInfo [d1, d2] = (0, false) := by
    show (if d1 = 45 then ((1 : Nat), true)
      else if d1 = 43 then (1, false) else (0, false)) = (0, false)
    rw [if_neg (by omega), if_neg (by omega)]
  have htw : [d1, d2].takeWhile isDigitByte = [d1, d2] :=
    takeWhile_all _ (by intro b hb; simp at hb; rcases hb with rfl | rfl <;> assumption)
  simp only [stoi, hdw, hsi, List.drop_zero, htw]
  simp [List.foldl]

theorem parseScriptLinesLoop_inv {σ : Type} (P : σ → Prop)
    (consume : σ → List Nat → IStream → IStream → Except (List Nat) (σ × IStream))
    (endMarker : List Nat)
    (hc : ∀ s cmd ls st s' st', P s → consume s cmd ls st = .ok (s', st') → P s') :
    ∀ (fuel : Nat) (s : σ) (st : IStream) (s' : σ) (st' : IStream),
      P s → parseScriptLinesLoop consume endMarker fuel s st = .ok (s', st') → P s'
  | 0, s, st, s', st', hP, h => by simp [parseScriptLinesLoop] at h
  | fuel + 1, s, st, s', st', hP, h => by
    rw [parseScriptLinesLoop] at h
    cases hg : getlineNl st with
    | none =>
      simp only [hg] at h
      exact Except.noConfusion h
    | some pr =>
      obtain ⟨raw, st1⟩ := pr
      simp only [hg] at h
      by_cases hcmd : isCommand (trim raw) = true
      · rw [if_pos hcmd] at h
        by_cases hend : stripCmdMarker (trim raw) = endMarker
        · rw [if_pos hend] at h
          simp only [Except.ok.injEq, Prod.mk.injEq] at h
          obtain ⟨rfl, rfl⟩ := h
          exact hP
        · rw [if_neg hend] at h
          cases hcons : consume s (trim (readToken ⟨stripCmdMarker (trim raw), 0, false⟩).1)
              (readToken ⟨stripCmdMarker (trim raw), 0, false⟩).2 st1 with
          | error e =>
            simp only [hcons] at h
            exact Except.noConfusion h
          | ok pr2 =>
            obtain ⟨s2, st2⟩ := pr2
            simp only [hcons] at h
            exact parseScriptLinesLoop_inv P consume endMarker hc fuel s2 st2 s' st'
              (hc s _ _ st1 s2 st2 hP hcons) h
      · rw [if_neg hcmd] at h
        exact parseScriptLinesLoop_inv P consume endMarker hc fuel s st1 s' st' hP h

/-! ## Claim theorems -/

/-- Claim C3: when the line source is exhausted before the end marker is
seen, `parseScriptLines` fails with the missing-end-marker error naming the
expected marker — for every consumer, marker and leftover fuel; and the
failure propagates out of `loadScripts` unchanged, so no bundle (not even
one containing the already-completed first script) is returned: concretely
for a source whose second script lacks END, and for a source whose
PAGESSTART block lacks PAGESEND. -/
theorem C3_theorem :
    (∀ (σ : Type)
       (consume : σ → List Nat → IStream → IStream → Except (List Nat) (σ × IStream))
       (endMarker : List Nat) (fuel : Nat) (s : σ) (st : IStream),
       st.data.length ≤ st.pos →
       parseScriptLines consume endMarker (fuel + 1) s st =
         .error (strB "Missing end marker '" ++ endMarker ++
           strB "' in Duke Script file")) ∧
    loadScripts (strB "a\n//END\nb\n//FADEIN\n") =
      .error (strB "Missing end marker 'END' in Duke Script file") ∧
    loadScripts (strB "s\n//PAGESSTART\n") =
      .error (strB "Missing end marker 'PAGESEND' in Duke Script file") := by
  refine ⟨?_, rfl, rfl⟩
  intro σ consume endMarker fuel s st h
  have hd : (skipWhiteSpace st).data.length ≤ (skipWhiteSpace st).pos := by
    rw [skipWhiteSpace_data]
    exact le_trans h (skipWhiteSpace_pos_le st)
  unfold parseScriptLines
  rw [parseScriptLinesLoop]
  simp only [getlineNl_none_of_exhausted hd]

/-- Claim C3 witness: the missing-end-marker failure at a concrete
exhausted stream. -/
theorem C3_witness :
    parseScriptLines
        (fun (s : Unit) (_ : List Nat) (_ : IStream) (st : IStream) =>
          (Except.ok (s, st) : Except (List Nat) (Unit × IStream)))
        (strB "END") 1 () ⟨[], 0, false⟩ =
      .error (strB "Missing end marker '" ++ strB "END" ++
        strB "' in Duke Script file") :=
  C3_theorem.1 Unit (fun s _ _ st => Except.ok (s, st)) (strB "END") 0 ()
    ⟨[], 0, false⟩ (by decide)

/-- Claim C4: when the message-box block parser reads a command line whose
keyword is neither CWTEXT nor SKLINE, it returns the accumulated lines and
a stream rewound to the remembered position before that line; concretely, a
CENTERWINDOW block with CWTEXT "Hi" and SKLINE followed by FADEOUT yields a
FadeOut action right after the ShowMessageBox in the enclosing script. -/
theorem C4_theorem :
    (∀ (fuel startOfLine : Nat) (acc : List (List Nat)) (st st1 : IStream)
       (raw : List Nat),
       getlineNl st = some (raw, st1) →
       isCommand (trim raw) = true →
       trim (readToken ⟨stripCmdMarker (trim raw), 0, false⟩).1 ≠ strB "CWTEXT" →
       trim (readToken ⟨stripCmdMarker (trim raw), 0, false⟩).1 ≠ strB "SKLINE" →
       parseMessageBoxLoop (fuel + 1) acc startOfLine st =
         .ok (acc, { st1 with pos := startOfLine })) ∧
    loadScripts
        (strB "demo\n//CENTERWINDOW 5 3 20\n//CWTEXT Hi\r\n//SKLINE\n//FADEOUT\n//END\n") =
      .ok [(strB "demo",
        [Action.ShowMessageBox 5 20 3 [strB "Hi", []], Action.FadeOut])] := by
  refine ⟨?_, rfl⟩
  intro fuel startOfLine acc st st1 raw hg hcmd hne1 hne2
  rw [parseMessageBoxLoop]
  simp only [hg]
  rw [if_pos hcmd, if_neg hne1, if_neg hne2]

/-- Claim C4 witness: the rewind applied at a concrete stream holding a
FADEOUT line. -/
theorem C4_witness :
    parseMessageBoxLoop 1 [strB "Hi", []] 0 ⟨strB "//FADEOUT\n", 0, false⟩ =
      .ok ([strB "Hi", []], ⟨strB "//FADEOUT\n", 0, false⟩) :=
  C4_theorem.1 0 0 [strB "Hi", []] ⟨strB "//FADEOUT\n", 0, false⟩
    ⟨strB "//FADEOUT\n", 10, false⟩ (strB "//FADEOUT") rfl rfl
    (by decide) (by decide)

/-- Claim C5: every successfully parsed paged definition has at least one
page (the parser starts from one empty page and never removes pages);
concretely the PAGESSTART/APAGE/PAGESEND scenario yields pages
`[[Delay 1], [Delay 2]]`, and a block with zero APAGE lines yields exactly
one page. -/
theorem C5_theorem :
    (∀ (fuel : Nat) (st : IStream) (pages : List (List Action)) (st' : IStream),
       parsePagesDefinition fuel st = .ok (pages, st') → 1 ≤ pages.length) ∧
    loadScripts (strB "s\n//PAGESSTART\n//DELAY 1\n//APAGE\n//DELAY 2\n//PAGESEND\n//END\n") =
      .ok [(strB "s", [Action.PagesDefinition [[Action.Delay 1], [Action.Delay 2]]])] ∧
    parsePagesDefinition 3 ⟨strB "//DELAY 1\n//PAGESEND\n", 0, false⟩ =
      .ok ([[Action.Delay 1]], ⟨strB "//DELAY 1\n//PAGESEND\n", 21, false⟩) := by
  refine ⟨?_, rfl, rfl⟩
  intro fuel st pages st' h
  unfold parsePagesDefinition parseScriptLines at h
  refine parseScriptLinesLoop_inv (fun l => 1 ≤ l.length) parsePagesConsume
    (strB "PAGESEND") ?_ fuel [[]] (skipWhiteSpace st) pages st' (by simp) h
  intro s cmd ls st0 s' st0' hP hcons
  unfold parsePagesConsume at hcons
  by_cases hA : cmd = strB "APAGE"
  · rw [if_pos hA] at hcons
    simp only [Except.ok.injEq, Prod.mk.injEq] at hcons
    obtain ⟨rfl, -⟩ := hcons
    simp
  · rw [if_neg hA] at hcons
    cases hpo : parseOneLineAction cmd ls with
    | error e =>
      simp only [hpo] at hcons
      exact Except.noConfusion hcons
    | ok m =>
      simp only [hpo] at hcons
      cases m with
      | none =>
        simp only [Except.ok.injEq, Prod.mk.injEq] at hcons
        obtain ⟨rfl, -⟩ := hcons
        exact hP
      | some a =>
        simp only [Except.ok.injEq, Prod.mk.injEq] at hcons
        obtain ⟨rfl, -⟩ := hcons
        rw [appendToLast_length]
        exact hP

/-- Claim C5 witness: the at-least-one-page invariant applied at the
zero-APAGE block. -/
theorem C5_witness :
    1 ≤ ([[Action.Delay 1]] : List (List Action)).length :=
  C5_theorem.1 3 ⟨strB "//DELAY 1\n//PAGESEND\n", 0, false⟩ [[Action.Delay 1]]
    ⟨strB "//DELAY 1\n//PAGESEND\n", 21, false⟩ C5_theorem.2.2

/-- Claim C1, counterexample: the source defines two scripts named "A", the
earlier with body FADEIN, the later with body FADEOUT.  `loadScripts`
returns a bundle whose entry for "A" is the FIRST body, `[FadeIn]` — not the
later `[FadeOut]` the claim promises: `bundle.emplace` on the
name-to-script map inserts only when the key is absent, so the behaviour is
first-write-wins, not last-write-wins. -/
theorem C1_counterexample :
    loadScripts (strB "A\n//FADEIN\n//END\nA\n//FADEOUT\n//END\n") =
      .ok [(strB "A", [Action.FadeIn])] ∧
    [Action.FadeIn] ≠ [Action.FadeOut] := by
  refine ⟨rfl, ?_⟩
  intro h
  simp at h

/-- Claim C1, amended: a later script with the same name does NOT overwrite
an earlier one — `emplace` leaves the bundle unchanged when the name is
already present (first-write-wins); the later body is nevertheless fully
parsed, so an error inside it still aborts the whole load. -/
theorem C1_amended :
    (∀ (bundle : List (List Nat × List Action)) (k : List Nat) (v : List Action),
       bundleLookup bundle k = some v →
       ∀ w : List Action, bundleEmplace bundle k w = bundle) ∧
    loadScripts (strB "A\n//FADEIN\n//END\nA\n//FADEOUT\n//END\n") =
      .ok [(strB "A", [Action.FadeIn])] ∧
    loadScripts (strB "A\n//END\nA\n//DELAY 0\n//END\n") =
      .error (strB "Invalid DELAY command in Duke Script file") := by
  refine ⟨?_, rfl, rfl⟩
  intro bundle k v h w
  unfold bundleLookup at h
  cases hf : bundle.find? (fun q => decide (q.1 = k)) with
  | none => rw [hf] at h; simp at h
  | some q =>
    have hmem := List.mem_of_find?_eq_some hf
    have hpred := List.find?_some hf
    unfold bundleEmplace
    rw [if_pos (List.any_eq_true.mpr ⟨q, hmem, hpred⟩)]

/-- Claim C1 witness: the first-write-wins fact of the amended claim applied
at a concrete bundle. -/
theorem C1_witness :
    bundleEmplace [(strB "A", [Action.FadeIn])] (strB "A") [Action.FadeOut] =
      [(strB "A", [Action.FadeIn])] :=
  C1_amended.1 [(strB "A", [Action.FadeIn])] (strB "A") [Action.FadeIn] rfl
    [Action.FadeOut]

/-- Claim C2, counterexample.  First conjunct: the payload
`0xEF :: "abcde"` is 6 bytes long, its first byte is 0xEF and no byte is
≥ 0xF0, yet decoding fails (`stoi` on the non-digit actor-id bytes throws),
contradicting "decoding fails exactly when the payload is shorter than
5 bytes".  Second conjunct: the 5-byte payload `0xEF :: "1234"` is
accepted, and the frame number is built from byte positions 4 and 5 — but
position 5 is one past the payload's end (the code reads the NUL
terminator of the `std::string` buffer), contradicting "all byte accesses
stay within the payload's bounds". -/
theorem C2_counterexample :
    decodeXYTEXT 0 0 (239 :: strB "abcde") = .error (strB "stoi: no conversion") ∧
    decodeXYTEXT 0 0 (239 :: strB "1234") =
      .ok (some (Action.DrawSprite 2 1 123 4)) :=
  ⟨rfl, rfl⟩

/-- Claim C2, amended: for a payload with first byte 0xEF and no byte
≥ 0xF0, decoding fails when the payload is shorter than 5 bytes, and also
when the actor-id/frame bytes are not decimal digits; when the payload has
at least 6 bytes and bytes 1-5 are decimal digits, the result is
`DrawSprite{x+2, y+1, actorId, frame}`, and (third conjunct) with at least
6 bytes the `[4,6)` byte range indeed stays within the payload's bounds. -/
theorem C2_amended :
    (∀ (x y : Int) (d1 d2 d3 d4 d5 : Nat) (rest : List Nat),
       isDigitByte d1 = true → isDigitByte d2 = true → isDigitByte d3 = true →
       isDigitByte d4 = true → isDigitByte d5 = true →
       (∀ b ∈ rest, b < 240) →
       decodeXYTEXT x y (239 :: d1 :: d2 :: d3 :: d4 :: d5 :: rest) =
         .ok (some (Action.DrawSprite (x + 2) (y + 1)
           (((d1 : Int) - 48) * 100 + ((d2 : Int) - 48) * 10 + ((d3 : Int) - 48))
           (((d4 : Int) - 48) * 10 + ((d5 : Int) - 48))))) ∧
    (∀ (x y : Int) (ps : List Nat),
       ps.head? = some 239 → (∀ b ∈ ps, b < 240) → ps.length < 5 →
       decodeXYTEXT x y ps = .error (strB "Corrupt Duke Script file")) ∧
    (∀ ps : List Nat, 6 ≤ ps.length → cppRange ps 4 6 = (ps.drop 4).take 2) := by
  refine ⟨?_, ?_, ?_⟩
  · intro x y d1 d2 d3 d4 d5 rest h1 h2 h3 h4 h5 hrest
    have e1 : 48 ≤ d1 ∧ d1 ≤ 57 := by simpa [isDigitByte] using h1
    have e2 : 48 ≤ d2 ∧ d2 ≤ 57 := by simpa [isDigitByte] using h2
    have e3 : 48 ≤ d3 ∧ d3 ≤ 57 := by simpa [isDigitByte] using h3
    have e4 : 48 ≤ d4 ∧ d4 ≤ 57 := by simpa [isDigitByte] using h4
    have e5 : 48 ≤ d5 ∧ d5 ≤ 57 := by simpa [isDigitByte] using h5
    have hdw : (239 :: d1 :: d2 :: d3 :: d4 :: d5 :: rest).dropWhile
        (fun c => decide (c < 240)) = [] := by
      refine dropWhile_all _ ?_
      intro b hb
      simp only [List.mem_cons] at hb
      simp only [decide_eq_true_eq]
      rcases hb with rfl | rfl | rfl | rfl | rfl | rfl | hb
      · omega
      · omega
      · omega
      · omega
      · omega
      · omega
      · exact hrest b hb
    have e14 : cppRange (239 :: d1 :: d2 :: d3 :: d4 :: d5 :: rest) 1 4 =
        [d1, d2, d3] := rfl
    have e46 : cppRange (239 :: d1 :: d2 :: d3 :: d4 :: d5 :: rest) 4 6 =
        [d4, d5] := rfl
    have hlen : ¬((239 :: d1 :: d2 :: d3 :: d4 :: d5 :: rest).length < 5) := by
      simp
    simp [decodeXYTEXT, hdw, hlen, e14, e46, stoiThreeDigits d1 d2 d3 h1 h2 h3,
      stoiTwoDigits d4 d5 h4 h5]
  · intro x y ps hhead hall hlen
    cases ps with
    | nil => simp at hhead
    | cons a tl =>
      have ha : a = 239 := by simpa using hhead
      subst ha
      have hdw : (239 :: tl).dropWhile (fun c => decide (c < 240)) = [] := by
        refine dropWhile_all _ ?_
        intro b hb
        simp only [decide_eq_true_eq]
        exact hall b hb
      simp [decodeXYTEXT, hdw]
      intro h4
      exfalso
      simp at hlen
      omega
  · intro ps h
    unfold cppRange
    rw [List.drop_append_of_le_length (by omega)]
    rw [List.take_append_of_le_length (by simp; omega)]

/-- Claim C2 witness: the amended claim applied at the specification's own
scenario payload, and at a 4-byte payload that is rejected as corrupt. -/
theorem C2_witness :
    decodeXYTEXT 5 1 (239 :: strB "12307") =
      .ok (some (Action.DrawSprite 7 2 123 7)) ∧
    decodeXYTEXT 0 0 [239, 49, 50, 51] = .error (strB "Corrupt Duke Script file") := by
  constructor
  · have h := C2_amended.1 5 1 49 50 51 48 55 [] (by decide) (by decide) (by decide)
      (by decide) (by decide) (by simp)
    norm_num at h
    exact h
  · exact C2_amended.2.1 0 0 [239, 49, 50, 51] rfl (by decide) (by decide)

/-- Claim C6: when the payload contains a byte ≥ 0xF0, with the first such
byte after exactly the bytes of `pre`, decoding yields
`DrawBigText{x + pre.length, y, marker - 0xF0, text-after-marker}`; this
applies even when the first payload byte is 0xEF (third conjunct), and the
specification's own scenario holds (second conjunct). -/
theorem C6_theorem :
    (∀ (x y : Int) (pre post : List Nat) (m : Nat),
       (∀ b ∈ pre, b < 240) → 240 ≤ m →
       decodeXYTEXT x y (pre ++ m :: post) =
         .ok (some (Action.DrawBigText (x + pre.length) y ((m : Int) - 240) post))) ∧
    decodeXYTEXT 0 3 (strB "  " ++ 247 :: strB "Hello") =
      .ok (some (Action.DrawBigText 2 3 7 (strB "Hello"))) ∧
    decodeXYTEXT 0 3 (239 :: 247 :: strB "A") =
      .ok (some (Action.DrawBigText 1 3 7 (strB "A"))) := by
  refine ⟨?_, rfl, rfl⟩
  intro x y pre post m hpre hm
  have hsplit := takeWhile_middle (p := fun c => decide (c < 240)) pre m post
    (by intro b hb; simp only [decide_eq_true_eq]; exact hpre b hb)
    (by simp; omega)
  have hne : (pre ++ m :: post).isEmpty = false := by
    cases pre <;> rfl
  simp [decodeXYTEXT, hne, hsplit.1, hsplit.2]

/-- Claim C6 witness: the big-text rule applied at the specification's
scenario (two leading spaces, marker byte 0xF7, text "Hello"). -/
theorem C6_witness :
    decodeXYTEXT 0 3 (strB "  " ++ 247 :: strB "Hello") =
      .ok (some (Action.DrawBigText (0 + ((strB "  ").length : Int)) 3
        ((247 : Int) - 240) (strB "Hello"))) :=
  C6_theorem.1 0 3 (strB "  ") (strB "Hello") 247 (by decide) (by decide)

/-- Claim C8: every keyword in the disallowed-context set reaching
`parseOneLineAction` fails with the context error naming that keyword;
every keyword outside that set and outside the dispatch table is a silent
no-op producing no action; concretely a bare APAGE aborts a whole load. -/
theorem C8_theorem :
    (∀ (cmd : List Nat) (ls : IStream), cmd ∈ contextKeywords →
       parseOneLineAction cmd ls =
         .error (strB "The command " ++ cmd ++
           strB " is not allowed in this context")) ∧
    (∀ (cmd : List Nat) (ls : IStream),
       cmd ∉ dispatchKeywords → cmd ∉ contextKeywords →
       parseOneLineAction cmd ls = .ok none) ∧
    loadScripts (strB "s\n//APAGE\n//END\n") =
      .error (strB "The command APAGE is not allowed in this context") := by
  refine ⟨?_, ?_, rfl⟩
  · intro cmd ls hmem
    fin_cases hmem <;> rfl
  · intro cmd ls h1 h2
    simp only [dispatchKeywords, contextKeywords, List.mem_cons, List.not_mem_nil,
      or_false, not_or] at h1 h2
    obtain ⟨n1, n2, n3, n4, n5, n6, n7, n8, n9, n10, n11, n12, n13, n14, n15, n16,
      n17⟩ := h1
    obtain ⟨m1, m2, m3, m4, m5, m6, m7⟩ := h2
    unfold parseOneLineAction
    rw [if_neg n1, if_neg n2, if_neg n3, if_neg n4, if_neg n5, if_neg n6, if_neg n7,
      if_neg n8, if_neg n9, if_neg n10, if_neg n11, if_neg n12, if_neg n13,
      if_neg n14, if_neg n15, if_neg n16, if_neg n17,
      if_neg (by push_neg; exact ⟨m1, m2, m3, m4, m5, m6, m7⟩)]

/-- Claim C8 witness: a bare APAGE yields the context error; the unknown
keyword ETE (outside both sets) is an accepted no-op. -/
theorem C8_witness :
    parseOneLineAction (strB "APAGE") ⟨[], 0, false⟩ =
      .error (strB "The command " ++ strB "APAGE" ++
        strB " is not allowed in this context") ∧
    parseOneLineAction (strB "ETE") ⟨[], 0, false⟩ = .ok none :=
  ⟨C8_theorem.1 (strB "APAGE") ⟨[], 0, false⟩ (by decide),
   C8_theorem.2.1 (strB "ETE") ⟨[], 0, false⟩ (by decide) (by decide)⟩

/-- Claim C7: a GETPAL command with an empty paletteFile token does fail,
but the thrown message is "Invalid LOADRAW command in Duke Script file"
(loader line 303, copy-pasted from the LOADRAW branch) — it names LOADRAW,
not GETPAL, contradicting the claim that the error identifies the offending
command. -/
theorem C7_theorem :
    parseOneLineAction (strB "GETPAL") ⟨[], 0, false⟩ =
      .error (strB "Invalid LOADRAW command in Duke Script file") ∧
    loadScripts (strB "s\n//GETPAL\n//END\n") =
      .error (strB "Invalid LOADRAW command in Duke Script file") :=
  ⟨rfl, rfl⟩

/-- Claim C9: a MENU command line appends exactly two actions, a
`ConfigurePersistentMenuSelection` with the slot read from the residual
line, immediately followed by `ScheduleFadeInBeforeNextWaitState`. -/
theorem C9_theorem :
    (∀ (fuel : Nat) (script : List Action) (ls st : IStream),
       parseScriptConsume fuel script (strB "MENU") ls st =
         .ok (script ++ [Action.ConfigurePersistentMenuSelection (readInt ls).1,
                         Action.ScheduleFadeInBeforeNextWaitState], st)) ∧
    loadScripts (strB "s\n//MENU 4\n//END\n") =
      .ok [(strB "s", [Action.ConfigurePersistentMenuSelection 4,
                       Action.ScheduleFadeInBeforeNextWaitState])] :=
  ⟨fun _ _ _ _ => rfl, rfl⟩

/-- Claim C10: parsing a TOGGS command never fails — for every residual
line it yields `SetupCheckBoxes` — and whenever the count parameter is zero
or negative (a failed extraction leaves it at 0) the definitions list is
empty; the concrete case is a residual line whose count field is not a
number. -/
theorem C10_theorem :
    (∀ ls : IStream,
       parseOneLineAction (strB "TOGGS") ls =
         .ok (some (Action.SetupCheckBoxes (readInt ls).1
           (toggsLoop (readInt (readInt ls).2).1.toNat (readInt (readInt ls).2).2 []).1))) ∧
    (∀ ls : IStream, (readInt (readInt ls).2).1 ≤ 0 →
       (toggsLoop (readInt (readInt ls).2).1.toNat (readInt (readInt ls).2).2 []).1 = []) ∧
    parseOneLineAction (strB "TOGGS") ⟨strB "5 abc", 0, false⟩ =
      .ok (some (Action.SetupCheckBoxes 5 [])) := by
  refine ⟨fun ls => rfl, ?_, rfl⟩
  intro ls h
  rw [Int.toNat_of_nonpos h]
  rfl

/-- Claim C10 witness: TOGGS with a negative count yields an empty
definitions list. -/
theorem C10_witness :
    parseOneLineAction (strB "TOGGS") ⟨strB "5 -2", 0, false⟩ =
      .ok (some (Action.SetupCheckBoxes 5
        (toggsLoop (readInt (readInt ⟨strB "5 -2", 0, false⟩).2).1.toNat
          (readInt (readInt ⟨strB "5 -2", 0, false⟩).2).2 []).1)) ∧
    (toggsLoop (readInt (readInt ⟨strB "5 -2", 0, false⟩).2).1.toNat
      (readInt (readInt ⟨strB "5 -2", 0, false⟩).2).2 []).1 = [] :=
  ⟨C10_theorem.1 ⟨strB "5 -2", 0, false⟩,
   C10_theorem.2.1 ⟨strB "5 -2", 0, false⟩ (by decide)⟩

end DukeScript
